import Mathlib

/-!
Verification of the wire-protocol codec and dispatch layer of a minimal
Kafka-like broker (Python source under app/ and app/protocol/).

Bytes are modelled as `List Nat` (each element a byte value 0..255 at every
call site that produces one).  Python's `int.from_bytes(bs, byteorder="big")`
with its default `signed=False` is the big-endian unsigned fold; Python list
slicing `bs[a:b]` clamps silently to the available range, which is exactly
the behaviour of `List.drop` / `List.take`; `int.to_bytes(w, "big")` yields
exactly `w` big-endian digits (all values encoded by this program fit their
declared width).
-/

namespace Kafka

/-- Python `int.from_bytes(bs, byteorder="big")` (unsigned, the default). -/
def fromBytesBE (bs : List Nat) : Nat :=
  bs.foldl (fun acc b => 256 * acc + b) 0

/-- Python `n.to_bytes(w, byteorder="big")`: `w` big-endian base-256 digits.
All call sites of the source pass values that fit in `w` bytes. -/
def toBytesBE : Nat → Nat → List Nat
  | 0, _ => []
  | w + 1, n => toBytesBE w (n / 256) ++ [n % 256]

/-- commons.py: `TAG_BUFFER = int(0).to_bytes(1, byteorder="big")`. -/
def TAG_BUFFER : List Nat := [0]

/-- commons.py: `get_size_representation(arr)` returns
`len(arr) + (len(arr) > 0)` (a Python bool adds as 0 or 1). -/
def get_size_representation (arr : List α) : Nat :=
  arr.length + (if 0 < arr.length then 1 else 0)

/-- The compact-array count as the fetch decoder realizes it: the topic loop
runs `range(topics_num - 1)`, and Python `range` of a negative count is
empty, exactly like truncated subtraction on `Nat`. -/
def decodeCompactCount (raw : Nat) : Nat := raw - 1

/-- main.py: the supported versions table entry for api key 18. -/
def SUPPORTED_API_KEYS_18 : List Nat := [0, 1, 2, 4]

/-- main.py: the supported versions table entry for api key 1. -/
def SUPPORTED_API_KEYS_1 : List Nat := [16]

/-- headers/RequestHeaderV2.py: `client_id_length_index = 2 + 2 + 4`. -/
def client_id_length_index : Nat := 2 + 2 + 4

/-- headers/RequestHeaderV2.py `get_client_id_length`: reads the two bytes at
offset 8 with `int.from_bytes`, whose default is UNSIGNED, then guards
`0 if client_id_length == -1 else client_id_length`.  The unsigned read can
never produce -1, so the guard is dead code: the bytes FF FF come out as
65535, not as the null sentinel. -/
def get_client_id_length (header_bytes : List Nat) : Nat :=
  let client_id_length :=
    fromBytesBE ((header_bytes.drop client_id_length_index).take 2)
  if (client_id_length : Int) = -1 then 0 else client_id_length

/-- The decoded fields of headers/RequestHeaderV2.py `__post_init__`. -/
structure RequestHeaderV2 where
  request_api_key : Nat
  request_api_version : Nat
  correlation_id : Nat
  client_id_length : Nat
  client_id : Nat
  tagged_fields : List Nat
deriving DecidableEq

/-- headers/RequestHeaderV2.py `__post_init__` on the stored `_bytes`:
fixed-offset unsigned reads; `client_id` is `_bytes[10:10+len]` (a clamping
slice) read as an integer; `tagged_fields` is the remainder. -/
def RequestHeaderV2.ofBytes (b : List Nat) : RequestHeaderV2 :=
  { request_api_key := fromBytesBE (b.take 2)
    request_api_version := fromBytesBE ((b.drop 2).take 2)
    correlation_id := fromBytesBE ((b.drop 4).take 4)
    client_id_length := get_client_id_length b
    client_id := fromBytesBE ((b.drop 10).take (get_client_id_length b))
    tagged_fields := b.drop (10 + get_client_id_length b) }

/-- RequestV2.py: size, header, content of the decoded request. -/
structure RequestV2 where
  size : Nat
  header : RequestHeaderV2
  content : List Nat
deriving DecidableEq

/-- RequestV2.py `__init__`: size from the first four bytes, the header slice
`_bytes[4:header_end_index]` with
`header_end_index = 4 + client_id_length_index + 2 + client_id_length + 1`,
and the content slice `_bytes[header_end_index:]`. -/
def RequestV2.ofBytes (b : List Nat) : RequestV2 :=
  let size := fromBytesBE (b.take 4)
  let client_id_length := get_client_id_length (b.drop 4)
  let header_end_index := 4 + client_id_length_index + 2 + client_id_length + 1
  { size
    header := RequestHeaderV2.ofBytes ((b.take header_end_index).drop 4)
    content := b.drop header_end_index }

/-- FetchRequestV16.py `Topic`: a 16-byte topic UUID kept as raw bytes. -/
structure Topic where
  topic_id : List Nat
deriving DecidableEq

/-- FetchRequestV16.py `Topic.__init__`: `UUID(bytes=_bytes[:16])`.  Python
`UUID(bytes=...)` raises unless it is given exactly 16 bytes, so decoding
fails when fewer than 16 bytes remain. -/
def Topic.ofBytes (b : List Nat) : Except String Topic :=
  if (b.take 16).length = 16 then .ok ⟨b.take 16⟩
  else .error "bytes is not a 16-char string"

/-- The topic loop of FetchRequestV16.py `__init__`: every iteration of
`for i in range(k)` appends `Topic(content[offset + 1:])`, reading the SAME
fixed slice each time (the offset is never advanced), and stops at the first
UUID failure. -/
def decodeTopics (b : List Nat) : Nat → Except String (List Topic)
  | 0 => .ok []
  | k + 1 => do
      let t ← Topic.ofBytes b
      let ts ← decodeTopics b k
      .ok (t :: ts)

/-- FetchRequestV16.py: the decoded request together with its topic list. -/
structure FetchRequestV16 where
  base : RequestV2
  topics : List Topic
deriving DecidableEq

/-- FetchRequestV16.py `__init__`: skip the fixed 21-byte content prefix
(`offset = 4 + 4 + 4 + 1 + 4 + 4`), read the one-byte topic count there
(an out-of-range slice is empty and `int.from_bytes` of nothing is 0), and
run the topic loop `range(topics_num - 1)` times over the fixed slice
`content[offset + 1:]`. -/
def FetchRequestV16.ofBytes (b : List Nat) : Except String FetchRequestV16 := do
  let base := RequestV2.ofBytes b
  let offset := 4 + 4 + 4 + 1 + 4 + 4
  let topics_num := fromBytesBE ((base.content.drop offset).take 1)
  let topics ← decodeTopics (base.content.drop (offset + 1))
    (decodeCompactCount topics_num)
  .ok { base, topics }

/-- headers/ResponseHeaderV0.py `to_bytes`: the correlation id alone. -/
def ResponseHeaderV0.to_bytes (correlation_id : Nat) : List Nat :=
  toBytesBE 4 correlation_id

/-- headers/ResponseHeaderV1.py `to_bytes`: correlation id then TAG_BUFFER. -/
def ResponseHeaderV1.to_bytes (correlation_id : Nat) : List Nat :=
  toBytesBE 4 correlation_id ++ TAG_BUFFER

/-- ApiVersionsResponseV3.py `APIKeysV3`. -/
structure APIKeysV3 where
  api_key : Nat
  min_version : Nat
  max_version : Nat
deriving DecidableEq

/-- ApiVersionsResponseV3.py `APIKeysV3.to_bytes`. -/
def APIKeysV3.to_bytes (k : APIKeysV3) : List Nat :=
  toBytesBE 2 k.api_key ++ toBytesBE 2 k.min_version ++
    toBytesBE 2 k.max_version ++ TAG_BUFFER

/-- ApiVersionsResponseV3.py `APIVersionsResponseV3`. -/
structure APIVersionsResponseV3 where
  error_code : Nat
  api_keys : List APIKeysV3
  throttle_time_ms : Nat
deriving DecidableEq

/-- ApiVersionsResponseV3.py `APIVersionsResponseV3.to_bytes`. -/
def APIVersionsResponseV3.to_bytes (r : APIVersionsResponseV3) : List Nat :=
  toBytesBE 2 r.error_code ++
    toBytesBE 1 (get_size_representation r.api_keys) ++
    (r.api_keys.map APIKeysV3.to_bytes).flatten ++
    toBytesBE 4 r.throttle_time_ms ++ TAG_BUFFER

/-- FetchResponseV16.py `PartitionsV16`: only the first two fields exist;
the rest of the partition is emitted as zeros. -/
structure PartitionsV16 where
  partition_index : Nat
  error_code : Nat
deriving DecidableEq

/-- FetchResponseV16.py `PartitionsV16.to_bytes`:
`partition_index(4) + error_code(2) + int(0).to_bytes(8+8+8+1+4+1+1)`,
that is 31 zero bytes. -/
def PartitionsV16.to_bytes (p : PartitionsV16) : List Nat :=
  toBytesBE 4 p.partition_index ++ toBytesBE 2 p.error_code ++
    toBytesBE (8 + 8 + 8 + 1 + 4 + 1 + 1) 0

/-- FetchResponseV16.py `TopicResponsesV16`. -/
structure TopicResponsesV16 where
  topic_id : List Nat
  partitions : List PartitionsV16
deriving DecidableEq

/-- FetchResponseV16.py `TopicResponsesV16.to_bytes`. -/
def TopicResponsesV16.to_bytes (t : TopicResponsesV16) : List Nat :=
  t.topic_id ++
    toBytesBE 1 (get_size_representation t.partitions) ++
    (t.partitions.map PartitionsV16.to_bytes).flatten ++ TAG_BUFFER

/-- FetchResponseV16.py `FetchResponseV16`. -/
structure FetchResponseV16 where
  throttle_time_ms : Nat
  error_code : Nat
  session_id : Nat
  responses : List TopicResponsesV16
deriving DecidableEq

/-- FetchResponseV16.py `FetchResponseV16.to_bytes`. -/
def FetchResponseV16.to_bytes (r : FetchResponseV16) : List Nat :=
  toBytesBE 4 r.throttle_time_ms ++ toBytesBE 2 r.error_code ++
    toBytesBE 4 r.session_id ++
    toBytesBE 1 (get_size_representation r.responses) ++
    (r.responses.map TopicResponsesV16.to_bytes).flatten ++ TAG_BUFFER

/-- The per-request body of main.py `main()`, from the raw inbound bytes to
the response header bytes and response content bytes.  Api key 18 answers
with ResponseHeaderV0 and the ApiVersions body (error code 0 when the
declared version is supported, else 35, the advertised table always
`(18,4,4), (1,16,16)` with throttle 0); api key 1 re-decodes the request as
FetchRequestV16 and answers with ResponseHeaderV1 and a FetchResponseV16
built from the first decoded topic (or none); any other key raises
NotImplementedError.  Note the fetch branch passes `FetchResponseV16(b'',
1, error_code, 0, ...)`, so `throttle_time_ms = 1` and the single fabricated
partition is `PartitionsV16(0, 100)`: `partition_index = 0` and
`error_code = 100` by the positional constructor. -/
def processRequest (data : List Nat) : Except String (List Nat × List Nat) :=
  let request := RequestV2.ofBytes data
  if request.header.request_api_key = 18 then
    let error_code :=
      if request.header.request_api_version ∈ SUPPORTED_API_KEYS_18 then 0 else 35
    let header := ResponseHeaderV0.to_bytes request.header.correlation_id
    let content := APIVersionsResponseV3.to_bytes
      { error_code
        api_keys := [⟨18, 4, 4⟩, ⟨1, 16, 16⟩]
        throttle_time_ms := 0 }
    .ok (header, content)
  else if request.header.request_api_key = 1 then
    match FetchRequestV16.ofBytes data with
    | .error e => .error e
    | .ok fetch =>
      match fetch.topics with
      | [] =>
          .ok (ResponseHeaderV1.to_bytes request.header.correlation_id,
            FetchResponseV16.to_bytes
              { throttle_time_ms := 1
                error_code := if request.header.request_api_version ∈
                  SUPPORTED_API_KEYS_1 then 0 else 35
                session_id := 0, responses := [] })
      | t :: _ =>
          .ok (ResponseHeaderV1.to_bytes request.header.correlation_id,
            FetchResponseV16.to_bytes
              { throttle_time_ms := 1
                error_code := if request.header.request_api_version ∈
                  SUPPORTED_API_KEYS_1 then 0 else 35
                session_id := 0
                responses := [{ topic_id := t.topic_id
                                partitions := [{ partition_index := 0
                                                 error_code := 100 }] }] })
  else
    .error "NotImplementedError"



/-! ### Helper lemmas -/

theorem toBytesBE_length (w n : Nat) : (toBytesBE w n).length = w := by
  induction w generalizing n with
  | zero => rfl
  | succ w ih => simp [toBytesBE, ih]

theorem fromBytesBE_singleton (b : Nat) : fromBytesBE [b] = b := by
  simp [fromBytesBE]

theorem Topic.ofBytes_of_le (b : List Nat) (h : 16 ≤ b.length) :
    Topic.ofBytes b = .ok ⟨b.take 16⟩ := by
  unfold Topic.ofBytes
  rw [if_pos]
  simp only [List.length_take]
  omega

theorem decodeTopics_of_le (b : List Nat) (h : 16 ≤ b.length) (k : Nat) :
    decodeTopics b k = .ok (List.replicate k ⟨b.take 16⟩) := by
  induction k with
  | zero => rfl
  | succ k ih =>
      simp only [decodeTopics, Topic.ofBytes_of_le b h, ih, List.replicate_succ]
      rfl

/-! ### Concrete wire-format test vectors -/

/-- An ApiVersions request: api key 18, version 4, correlation id 7, empty
client id, empty tag buffer. -/
def dataA : List Nat := [0, 0, 0, 11, 0, 18, 0, 4, 0, 0, 0, 7, 0, 0, 0]

/-- The ApiVersions response body for a supported version: error code 0,
count byte 3, entries (18,4,4) and (1,16,16), throttle 0, tag buffer. -/
def bodyA : List Nat :=
  [0, 0, 3, 0, 18, 0, 4, 0, 4, 0, 0, 1, 0, 16, 0, 16, 0, 0, 0, 0, 0, 0]

/-- A fetch request (api key 1, version 16, correlation id 9) whose content
carries the 21-byte fixed prefix and the topic count byte 0. -/
def dataF0 : List Nat :=
  [0, 0, 0, 33, 0, 1, 0, 16, 0, 0, 0, 9, 0, 0, 0] ++ List.replicate 21 0 ++ [0]

/-- A fetch request (api key 1, version 16) whose content is empty: the
count byte at content offset 21 is absent. -/
def dataF0short : List Nat := [0, 0, 0, 11, 0, 1, 0, 16, 0, 0, 0, 9, 0, 0, 0]

/-- A 16-byte topic UUID used by the fetch test vectors. -/
def U : List Nat := [1, 2, 3, 4, 5, 6, 7, 8, 9, 10, 11, 12, 13, 14, 15, 16]

/-- A fetch request declaring one topic: count byte 2, then the UUID. -/
def dataF1 : List Nat :=
  [0, 0, 0, 49, 0, 1, 0, 16, 0, 0, 0, 9, 0, 0, 0] ++
    List.replicate 21 0 ++ [2] ++ U

/-- A fetch request declaring two topics: count byte 3, then one UUID (the
decoder never advances, so no further topic bytes are ever read). -/
def dataF2 : List Nat :=
  [0, 0, 0, 49, 0, 1, 0, 16, 0, 0, 0, 9, 0, 0, 0] ++
    List.replicate 21 0 ++ [3] ++ U

/-- The fetch response body the dispatcher emits for dataF1 and dataF2:
throttle 1, error 0, session 0, count byte 2, one topic response for U with
one partition (index 0, error code 100, 31-byte zero trailer), tags. -/
def bodyFsingle : List Nat :=
  [0, 0, 0, 1, 0, 0, 0, 0, 0, 0, 2] ++ U ++ [2] ++
    ([0, 0, 0, 0] ++ [0, 100] ++ List.replicate 31 0) ++ [0] ++ [0]

/-! ### Claims -/

/-- Claim C1: the write direction `get_size_representation` maps 0 to 0 and
n to n + 1 otherwise; the decode direction (the fetch decoder's
`range(topics_num - 1)` loop length) maps 0 to 0 and raw to raw - 1
otherwise; and the round trip recovers every count n >= 0. -/
theorem C1_compact_array_law :
    (∀ (arr : List Nat), get_size_representation arr =
        if arr.length = 0 then 0 else arr.length + 1) ∧
    (∀ raw : Nat, decodeCompactCount raw = if raw = 0 then 0 else raw - 1) ∧
    (∀ (arr : List Nat),
        decodeCompactCount (get_size_representation arr) = arr.length) := by
  refine ⟨fun arr => ?_, fun raw => ?_, fun arr => ?_⟩
  · simp only [get_size_representation]
    split <;> split <;> omega
  · simp only [decodeCompactCount]
    split <;> omega
  · simp only [get_size_representation, decodeCompactCount]
    split <;> omega

/-- Claim C6 (amended): each encoded partition is partition_index(4) ++
error_code(2) ++ 31 zero bytes (the 30 bytes of the zeroed fixed-width
fields plus the partition's one-byte trailing tag buffer), 37 bytes in
total. -/
theorem C6_partition_encoding (p : PartitionsV16) :
    PartitionsV16.to_bytes p =
      toBytesBE 4 p.partition_index ++ toBytesBE 2 p.error_code ++
        List.replicate 31 0 ∧
    (PartitionsV16.to_bytes p).length = 37 := by
  constructor
  · show toBytesBE 4 p.partition_index ++ toBytesBE 2 p.error_code ++
      toBytesBE 31 0 = _
    have h31 : toBytesBE 31 0 = List.replicate 31 0 := by decide
    rw [h31]
  · simp [PartitionsV16.to_bytes, toBytesBE_length]

/-- Claim C6 counterexample: the encoded partition for (index 0, error 100)
is 37 bytes, not the 36 the claim states, and differs from the claimed
4 + 2 + 30-zero-byte layout. -/
theorem C6_counterexample :
    (PartitionsV16.to_bytes ⟨0, 100⟩).length = 37 ∧ (37 : Nat) ≠ 36 ∧
    PartitionsV16.to_bytes ⟨0, 100⟩ ≠
      toBytesBE 4 0 ++ toBytesBE 2 100 ++ List.replicate 30 0 := by
  decide

/-- Claim C7: the client-id length bytes FF FF (the int16 null sentinel -1)
do NOT decode to an absent client id.  The source reads the two bytes with
an unsigned `int.from_bytes`, so they come out as 65535, the dead `== -1`
guard does not fire, the decoder consumes everything after the length field
as client id, and the trailing tag buffer comes out empty even though one
byte follows the length field. -/
theorem C7_null_sentinel_divergence :
    get_client_id_length [0, 18, 0, 4, 0, 0, 0, 7, 255, 255, 0] = 65535 ∧
    (RequestHeaderV2.ofBytes
      [0, 18, 0, 4, 0, 0, 0, 7, 255, 255, 0]).client_id_length = 65535 ∧
    (RequestHeaderV2.ofBytes
      [0, 18, 0, 4, 0, 0, 0, 7, 255, 255, 0]).tagged_fields = [] ∧
    ([0, 18, 0, 4, 0, 0, 0, 7, 255, 255, 0] : List Nat).drop 10 = [0] := by
  decide

/-- Claim C8 (amended): decoding never fails on an over-long declared
client-id length; the clamping slice reads the client id from exactly the
bytes that remain after offset 10 and the tag buffer comes out empty. -/
theorem C8_clamped_client_id (b : List Nat)
    (h : b.length < 10 + get_client_id_length b) :
    (RequestHeaderV2.ofBytes b).client_id = fromBytesBE (b.drop 10) ∧
    (RequestHeaderV2.ofBytes b).tagged_fields = [] := by
  unfold RequestHeaderV2.ofBytes
  refine ⟨?_, ?_⟩
  · show fromBytesBE ((b.drop 10).take (get_client_id_length b)) = _
    congr 1
    apply List.take_of_length_le
    simp only [List.length_drop]
    omega
  · show b.drop (10 + get_client_id_length b) = []
    apply List.drop_eq_nil_of_le
    omega

/-- Claim C8 witness: header bytes declaring a 5-byte client id with only 2
bytes remaining decode without failure, reading those 2 bytes. -/
theorem C8_clamped_client_id_witness :
    ([0, 18, 0, 4, 0, 0, 0, 7, 0, 5, 1, 2] : List Nat).length <
      10 + get_client_id_length [0, 18, 0, 4, 0, 0, 0, 7, 0, 5, 1, 2] ∧
    (RequestHeaderV2.ofBytes [0, 18, 0, 4, 0, 0, 0, 7, 0, 5, 1, 2]).client_id =
      fromBytesBE (([0, 18, 0, 4, 0, 0, 0, 7, 0, 5, 1, 2] : List Nat).drop 10) ∧
    (RequestHeaderV2.ofBytes
      [0, 18, 0, 4, 0, 0, 0, 7, 0, 5, 1, 2]).tagged_fields = [] :=
  ⟨by decide, C8_clamped_client_id [0, 18, 0, 4, 0, 0, 0, 7, 0, 5, 1, 2] (by decide)⟩

/-- Claim C8 counterexample: the claim says decoding fails when the declared
client-id length reads past the buffer; on these 12 header bytes (declared
length 5, 2 bytes available) decoding instead returns a header, with the
client id read from the 2 available bytes. -/
theorem C8_counterexample :
    RequestHeaderV2.ofBytes [0, 18, 0, 4, 0, 0, 0, 7, 0, 5, 1, 2] =
      { request_api_key := 18, request_api_version := 4, correlation_id := 7
        client_id_length := 5, client_id := 258, tagged_fields := [] } ∧
    ([0, 18, 0, 4, 0, 0, 0, 7, 0, 5, 1, 2] : List Nat).length < 10 + 5 := by
  decide

/-- Claim C10: when the content section is 21 bytes or shorter the count
slice is empty, `int.from_bytes` of no bytes is 0, and fetch decoding
succeeds with an empty topic list. -/
theorem C10_short_content_empty_topics (data : List Nat)
    (h : (RequestV2.ofBytes data).content.length ≤ 21) :
    fromBytesBE (((RequestV2.ofBytes data).content.drop 21).take 1) = 0 ∧
    FetchRequestV16.ofBytes data =
      .ok { base := RequestV2.ofBytes data, topics := [] } := by
  have hdrop : (RequestV2.ofBytes data).content.drop 21 = [] :=
    List.drop_eq_nil_of_le h
  constructor
  · rw [hdrop]
    rfl
  · unfold FetchRequestV16.ofBytes
    simp only [show (4 + 4 + 4 + 1 + 4 + 4 : Nat) = 21 from rfl, hdrop]
    rfl

/-- Claim C10 witness: a fetch request with an empty content section decodes
without failure to an empty topic list. -/
theorem C10_short_content_empty_topics_witness :
    (RequestV2.ofBytes dataF0short).content.length ≤ 21 ∧
    FetchRequestV16.ofBytes dataF0short =
      .ok { base := RequestV2.ofBytes dataF0short, topics := [] } :=
  ⟨by decide, (C10_short_content_empty_topics dataF0short (by decide)).2⟩

/-- The fetch response body the dispatcher emits for an empty topic list
with a supported version: throttle 1, error 0, session 0, count byte 0,
tag buffer. -/
def bodyFempty : List Nat := [0, 0, 0, 1, 0, 0, 0, 0, 0, 0, 0, 0]

/-- Claim C9: a fetch request declaring N topics via count byte N + 1, with
at least 16 content bytes after the count byte, decodes to N topic entries
that are all read from the same fixed slice (content offset 22, right after
the count byte at offset 21): every entry carries the first topic's UUID. -/
theorem C9_multi_topic_fixed_offset (data : List Nat) (N : Nat) (hN : 2 ≤ N)
    (hcount : ((RequestV2.ofBytes data).content.drop 21).take 1 = [N + 1])
    (hlen : 16 ≤ ((RequestV2.ofBytes data).content.drop 22).length) :
    FetchRequestV16.ofBytes data = .ok
      { base := RequestV2.ofBytes data
        topics := List.replicate N
          ⟨((RequestV2.ofBytes data).content.drop 22).take 16⟩ } := by
  have key : FetchRequestV16.ofBytes data =
      (decodeTopics ((RequestV2.ofBytes data).content.drop 22)
          (decodeCompactCount
            (fromBytesBE (((RequestV2.ofBytes data).content.drop 21).take 1)))).bind
        (fun topics => .ok { base := RequestV2.ofBytes data, topics := topics }) :=
    rfl
  rw [key, hcount, fromBytesBE_singleton]
  have hdc : decodeCompactCount (N + 1) = N := by
    simp [decodeCompactCount]
  rw [hdc, decodeTopics_of_le _ hlen N]
  rfl

/-- Claim C9 witness: the two-topic request dataF2 (count byte 3) decodes to
two entries that both carry the first UUID. -/
theorem C9_multi_topic_fixed_offset_witness :
    ((2 : Nat) ≤ 2 ∧
      ((RequestV2.ofBytes dataF2).content.drop 21).take 1 = [2 + 1] ∧
      16 ≤ ((RequestV2.ofBytes dataF2).content.drop 22).length) ∧
    FetchRequestV16.ofBytes dataF2 = .ok
      { base := RequestV2.ofBytes dataF2
        topics := List.replicate 2
          ⟨((RequestV2.ofBytes dataF2).content.drop 22).take 16⟩ } :=
  ⟨⟨by decide, by decide, by decide⟩,
    C9_multi_topic_fixed_offset dataF2 2 (by decide) (by decide) (by decide)⟩

/-- Claim C2: whenever the dispatcher answers, the response header variant
is keyed by the response API: api key 18 gets the bare 4-byte big-endian
correlation id (ResponseHeaderV0) and api key 1 gets the correlation id
followed by the single 0x00 tag-buffer byte (ResponseHeaderV1). -/
theorem C2_header_variant_per_api (data h c : List Nat)
    (hp : processRequest data = .ok (h, c)) :
    ((RequestV2.ofBytes data).header.request_api_key = 18 →
      h = toBytesBE 4 (RequestV2.ofBytes data).header.correlation_id) ∧
    ((RequestV2.ofBytes data).header.request_api_key = 1 →
      h = toBytesBE 4 (RequestV2.ofBytes data).header.correlation_id ++ [0]) := by
  simp only [processRequest] at hp
  split at hp
  · rename_i h18
    simp only [Except.ok.injEq, Prod.mk.injEq] at hp
    refine ⟨fun _ => hp.1.symm, fun h1 => absurd (h18.symm.trans h1) (by decide)⟩
  · rename_i h18
    split at hp
    · rename_i h1
      split at hp
      · simp at hp
      · rename_i fetch heq
        split at hp
        · simp only [Except.ok.injEq, Prod.mk.injEq] at hp
          exact ⟨fun hk => absurd hk h18, fun _ => hp.1.symm⟩
        · simp only [Except.ok.injEq, Prod.mk.injEq] at hp
          exact ⟨fun hk => absurd hk h18, fun _ => hp.1.symm⟩
    · simp at hp

/-- Claim C2 witness: the concrete ApiVersions request dataA is answered
with the bare correlation id header. -/
theorem C2_header_variant_per_api_witness :
    processRequest dataA = .ok ([0, 0, 0, 7], bodyA) ∧
    (((RequestV2.ofBytes dataA).header.request_api_key = 18 →
        [0, 0, 0, 7] =
          toBytesBE 4 (RequestV2.ofBytes dataA).header.correlation_id) ∧
      ((RequestV2.ofBytes dataA).header.request_api_key = 1 →
        [0, 0, 0, 7] =
          toBytesBE 4 (RequestV2.ofBytes dataA).header.correlation_id ++ [0])) :=
  ⟨rfl, C2_header_variant_per_api dataA [0, 0, 0, 7] bodyA rfl⟩

/-- Claim C3: every ApiVersions response body is the error code (0 when the
declared version is one of 0, 1, 2, 4 and 35 otherwise) followed by the
fixed advertised table: count byte 3, entries (18,4,4) and (1,16,16) with
their tag buffers, throttle_time_ms 0 and the trailing tag buffer, the same
table whatever the error code. -/
theorem C3_api_versions_body (data h c : List Nat)
    (hp : processRequest data = .ok (h, c))
    (hk : (RequestV2.ofBytes data).header.request_api_key = 18) :
    c = toBytesBE 2
        (if (RequestV2.ofBytes data).header.request_api_version ∈
            ([0, 1, 2, 4] : List Nat) then 0 else 35) ++
      [3, 0, 18, 0, 4, 0, 4, 0, 0, 1, 0, 16, 0, 16, 0, 0, 0, 0, 0, 0] := by
  simp only [processRequest, SUPPORTED_API_KEYS_18] at hp
  rw [if_pos hk] at hp
  simp only [Except.ok.injEq, Prod.mk.injEq] at hp
  rw [← hp.2]
  by_cases hv : (RequestV2.ofBytes data).header.request_api_version ∈
      ([0, 1, 2, 4] : List Nat)
  · rw [if_pos hv]
    decide
  · rw [if_neg hv]
    decide

/-- Claim C3 witness: the ApiVersions request dataA (declared version 4)
receives error code 0 and the advertised table. -/
theorem C3_api_versions_body_witness :
    processRequest dataA = .ok ([0, 0, 0, 7], bodyA) ∧
    (RequestV2.ofBytes dataA).header.request_api_key = 18 ∧
    bodyA = toBytesBE 2
        (if (RequestV2.ofBytes dataA).header.request_api_version ∈
            ([0, 1, 2, 4] : List Nat) then 0 else 35) ++
      [3, 0, 18, 0, 4, 0, 4, 0, 0, 1, 0, 16, 0, 16, 0, 0, 0, 0, 0, 0] :=
  ⟨rfl, by decide,
    C3_api_versions_body dataA [0, 0, 0, 7] bodyA rfl (by decide)⟩

/-- Claim C4 (amended): the fetch response carries zero topic-responses
(count byte 0x00) when the decoded topic list is empty, and otherwise
exactly ONE topic-response, fabricated from the FIRST decoded topic,
regardless of how many topics were decoded. -/
theorem C4_fetch_topic_response_count (data h c : List Nat)
    (f : FetchRequestV16)
    (hp : processRequest data = .ok (h, c))
    (hk : (RequestV2.ofBytes data).header.request_api_key = 1)
    (hf : FetchRequestV16.ofBytes data = .ok f) :
    (f.topics = [] →
      c = FetchResponseV16.to_bytes
        { throttle_time_ms := 1
          error_code :=
            if (RequestV2.ofBytes data).header.request_api_version = 16
            then 0 else 35
          session_id := 0, responses := [] } ∧
      c.getD 10 0 = 0) ∧
    (∀ t ts, f.topics = t :: ts →
      c = FetchResponseV16.to_bytes
        { throttle_time_ms := 1
          error_code :=
            if (RequestV2.ofBytes data).header.request_api_version = 16
            then 0 else 35
          session_id := 0
          responses := [{ topic_id := t.topic_id
                          partitions := [{ partition_index := 0
                                           error_code := 100 }] }] } ∧
      decodeCompactCount (c.getD 10 0) = 1) := by
  simp only [processRequest, SUPPORTED_API_KEYS_1, List.mem_singleton] at hp
  rw [if_neg (show ¬(RequestV2.ofBytes data).header.request_api_key = 18 by
      rw [hk]; decide), if_pos hk] at hp
  split at hp
  · rename_i e heq
    rw [hf] at heq
    exact Except.noConfusion heq
  · rename_i fetch heq
    rw [hf] at heq
    injection heq with heq2
    subst heq2
    split at hp
    · rename_i hts
      simp only [Except.ok.injEq, Prod.mk.injEq] at hp
      refine ⟨fun _ => ⟨hp.2.symm, ?_⟩, fun t ts hcontra => ?_⟩
      · rw [← hp.2]
        by_cases hv : (RequestV2.ofBytes data).header.request_api_version = 16
        · rw [if_pos hv]
          decide
        · rw [if_neg hv]
          decide
      · rw [hts] at hcontra
        exact List.noConfusion hcontra
    · rename_i t0 ts0 hts
      simp only [Except.ok.injEq, Prod.mk.injEq] at hp
      refine ⟨fun hcontra => ?_, fun t ts htt => ?_⟩
      · rw [hts] at hcontra
        exact List.noConfusion hcontra
      · rw [hts] at htt
        injection htt with ht1 ht2
        subst ht1
        refine ⟨hp.2.symm, ?_⟩
        rw [← hp.2]
        by_cases hv : (RequestV2.ofBytes data).header.request_api_version = 16
        · rw [if_pos hv]
          have hkey : FetchResponseV16.to_bytes
              { throttle_time_ms := 1, error_code := 0, session_id := 0
                responses := [{ topic_id := t0.topic_id
                                partitions := [{ partition_index := 0
                                                 error_code := 100 }] }] } =
              [0, 0, 0, 1, 0, 0, 0, 0, 0, 0, 2] ++
                ((([{ topic_id := t0.topic_id
                      partitions := [{ partition_index := 0
                                       error_code := 100 }] }] :
                    List TopicResponsesV16).map
                  TopicResponsesV16.to_bytes).flatten ++ [0]) := by
            simp [FetchResponseV16.to_bytes, get_size_representation,
              TAG_BUFFER, toBytesBE]
          rw [hkey, List.getD_append _ _ _ _ (by decide)]
          decide
        · rw [if_neg hv]
          have hkey : FetchResponseV16.to_bytes
              { throttle_time_ms := 1, error_code := 35, session_id := 0
                responses := [{ topic_id := t0.topic_id
                                partitions := [{ partition_index := 0
                                                 error_code := 100 }] }] } =
              [0, 0, 0, 1, 0, 35, 0, 0, 0, 0, 2] ++
                ((([{ topic_id := t0.topic_id
                      partitions := [{ partition_index := 0
                                       error_code := 100 }] }] :
                    List TopicResponsesV16).map
                  TopicResponsesV16.to_bytes).flatten ++ [0]) := by
            simp [FetchResponseV16.to_bytes, get_size_representation,
              TAG_BUFFER, toBytesBE]
          rw [hkey, List.getD_append _ _ _ _ (by decide)]
          decide

/-- Claim C4 counterexample: the two-topic request dataF2 decodes to two
topics, yet the response body carries a compact count byte of 2, that is a
single topic-response, not one per decoded topic. -/
theorem C4_counterexample :
    (FetchRequestV16.ofBytes dataF2).map (fun r => r.topics.length) = .ok 2 ∧
    processRequest dataF2 = .ok ([0, 0, 0, 9, 0], bodyFsingle) ∧
    decodeCompactCount (bodyFsingle.getD 10 0) = 1 ∧ (1 : Nat) ≠ 2 :=
  ⟨rfl, rfl, rfl, by decide⟩

/-- Claim C4 witness: the zero-topic fetch request dataF0 is answered with
zero topic-responses and count byte 0x00. -/
theorem C4_fetch_topic_response_count_witness :
    processRequest dataF0 = .ok ([0, 0, 0, 9, 0], bodyFempty) ∧
    (RequestV2.ofBytes dataF0).header.request_api_key = 1 ∧
    FetchRequestV16.ofBytes dataF0 =
      .ok { base := RequestV2.ofBytes dataF0, topics := [] } ∧
    ((([] : List Topic) = [] →
      bodyFempty = FetchResponseV16.to_bytes
        { throttle_time_ms := 1
          error_code :=
            if (RequestV2.ofBytes dataF0).header.request_api_version = 16
            then 0 else 35
          session_id := 0, responses := [] } ∧
      bodyFempty.getD 10 0 = 0) ∧
    (∀ t ts, ([] : List Topic) = t :: ts →
      bodyFempty = FetchResponseV16.to_bytes
        { throttle_time_ms := 1
          error_code :=
            if (RequestV2.ofBytes dataF0).header.request_api_version = 16
            then 0 else 35
          session_id := 0
          responses := [{ topic_id := t.topic_id
                          partitions := [{ partition_index := 0
                                           error_code := 100 }] }] } ∧
      decodeCompactCount (bodyFempty.getD 10 0) = 1)) :=
  ⟨rfl, by decide, rfl,
    C4_fetch_topic_response_count dataF0 [0, 0, 0, 9, 0] bodyFempty
      { base := RequestV2.ofBytes dataF0, topics := [] } rfl (by decide) rfl⟩

/-- Claim C5 (amended): a fetch request with exactly one decoded topic of
UUID U is answered with one topic-response with topic_id U and one
partition whose encoding is partition_index 0 (4 bytes), error_code 100
(the UNKNOWN_TOPIC_ID stub, NOT the negotiated error code) and a 31-byte
zero trailer (so the high-watermark bytes are 0, not 100); the negotiated
error code (0 for declared version 16, else 35) appears only as the top
level error_code of the response body. -/
theorem C5_single_topic_fetch_response (data h c : List Nat)
    (f : FetchRequestV16) (t : Topic)
    (hp : processRequest data = .ok (h, c))
    (hk : (RequestV2.ofBytes data).header.request_api_key = 1)
    (hf : FetchRequestV16.ofBytes data = .ok f)
    (ht : f.topics = [t]) :
    c = [0, 0, 0, 1] ++
        toBytesBE 2
          (if (RequestV2.ofBytes data).header.request_api_version = 16
            then 0 else 35) ++
        [0, 0, 0, 0, 2] ++ t.topic_id ++ [2] ++
        [0, 0, 0, 0] ++ [0, 100] ++ List.replicate 31 0 ++ [0, 0] := by
  simp only [processRequest, SUPPORTED_API_KEYS_1, List.mem_singleton] at hp
  rw [if_neg (show ¬(RequestV2.ofBytes data).header.request_api_key = 18 by
      rw [hk]; decide), if_pos hk] at hp
  split at hp
  · rename_i e heq
    rw [hf] at heq
    exact Except.noConfusion heq
  · rename_i fetch heq
    rw [hf] at heq
    injection heq with heq2
    subst heq2
    split at hp
    · rename_i hts
      rw [ht] at hts
      exact List.noConfusion hts
    · rename_i t0 ts0 hts
      rw [ht] at hts
      injection hts with ht1 ht2
      subst ht1
      simp only [Except.ok.injEq, Prod.mk.injEq] at hp
      rw [← hp.2]
      have h31 : List.replicate 31 (0 : Nat) = toBytesBE 31 0 := by decide
      rw [h31]
      by_cases hv : (RequestV2.ofBytes data).header.request_api_version = 16
      · rw [if_pos hv]
        simp [FetchResponseV16.to_bytes, TopicResponsesV16.to_bytes,
          PartitionsV16.to_bytes, get_size_representation, TAG_BUFFER,
          toBytesBE]
      · rw [if_neg hv]
        simp [FetchResponseV16.to_bytes, TopicResponsesV16.to_bytes,
          PartitionsV16.to_bytes, get_size_representation, TAG_BUFFER,
          toBytesBE]

/-- Claim C5 counterexample: for the single-topic request dataF1 (declared
version 16, so negotiated error code 0), the partition's error-code bytes
are [0, 100], not the negotiated 0, and its high-watermark bytes are all
zero, not 100, refuting the claimed partition fields. -/
theorem C5_counterexample :
    processRequest dataF1 = .ok ([0, 0, 0, 9, 0], bodyFsingle) ∧
    (FetchRequestV16.ofBytes dataF1).map (fun r => r.topics) = .ok [⟨U⟩] ∧
    (RequestV2.ofBytes dataF1).header.request_api_version = 16 ∧
    ((bodyFsingle.drop 32).take 2 = [0, 100] ∧
      ([0, 100] : List Nat) ≠ toBytesBE 2 0) ∧
    ((bodyFsingle.drop 34).take 8 = List.replicate 8 0 ∧
      List.replicate 8 (0 : Nat) ≠ toBytesBE 8 100) :=
  ⟨rfl, rfl, by decide, ⟨by decide, by decide⟩, ⟨by decide, by decide⟩⟩

/-- Claim C5 witness: the single-topic request dataF1 with UUID U receives
exactly the amended response layout. -/
theorem C5_single_topic_fetch_response_witness :
    processRequest dataF1 = .ok ([0, 0, 0, 9, 0], bodyFsingle) ∧
    (RequestV2.ofBytes dataF1).header.request_api_key = 1 ∧
    FetchRequestV16.ofBytes dataF1 =
      .ok { base := RequestV2.ofBytes dataF1, topics := [⟨U⟩] } ∧
    bodyFsingle = [0, 0, 0, 1] ++
        toBytesBE 2
          (if (RequestV2.ofBytes dataF1).header.request_api_version = 16
            then 0 else 35) ++
        [0, 0, 0, 0, 2] ++ U ++ [2] ++
        [0, 0, 0, 0] ++ [0, 100] ++ List.replicate 31 0 ++ [0, 0] :=
  ⟨rfl, by decide, rfl,
    C5_single_topic_fetch_response dataF1 [0, 0, 0, 9, 0] bodyFsingle
      { base := RequestV2.ofBytes dataF1, topics := [⟨U⟩] } ⟨U⟩
      rfl (by decide) rfl rfl⟩

end Kafka
